import Mathlib

/-!
Shallow embedding of the ViaText TTGO LoRa32 node firmware frame interpreter
(src/src/node_interface.cpp) and its TLV codec.

Frames are lists of bytes (`List Nat`, each entry the value of one `uint8_t`).
The fixed 4-byte inner-frame header is `[verb, flags, seq, tlv_len]`.
Reads of frame memory are modelled with `List.getD` so that a frame list may
be longer than the delivered length `len`; bytes at indices at or past `len`
stand for adjacent memory beyond the delivered frame.  Loops with a cursor
are modelled with an explicit fuel argument that the callers instantiate with
the declared TLV region length; each loop iteration of the source advances
the cursor by at least two bytes, so that fuel is never exhausted before the
loop condition of the source fails.
-/

-- ===========================================================================
-- Verb and tag codes (src/include/node_protocol.hpp)
-- ===========================================================================

namespace Verb

def GET_ID : Nat := 0x01
def SET_ID : Nat := 0x02
def PING : Nat := 0x03
def MSG : Nat := 0x20
def GET_PARAM : Nat := 0x10
def SET_PARAM : Nat := 0x11
def GET_ALL : Nat := 0x12
def RESP_OK : Nat := 0x90
def RESP_ERR : Nat := 0x91

end Verb

def TAG_ID : Nat := 0x01
def TAG_ALIAS : Nat := 0x02
def TAG_FW_VERSION : Nat := 0x03
def TAG_UPTIME_S : Nat := 0x04
def TAG_BOOT_TIME : Nat := 0x05
def TAG_FREQ_HZ : Nat := 0x10
def TAG_SF : Nat := 0x11
def TAG_BW_HZ : Nat := 0x12
def TAG_CR : Nat := 0x13
def TAG_TX_PWR_DBM : Nat := 0x14
def TAG_CHAN : Nat := 0x15
def TAG_MODE : Nat := 0x20
def TAG_HOPS : Nat := 0x21
def TAG_BEACON_SEC : Nat := 0x22
def TAG_BUF_SIZE : Nat := 0x23
def TAG_ACK_MODE : Nat := 0x24
def TAG_RSSI_DBM : Nat := 0x30
def TAG_SNR_DB : Nat := 0x31
def TAG_VBAT_MV : Nat := 0x32
def TAG_TEMP_C10 : Nat := 0x33
def TAG_FREE_MEM : Nat := 0x34
def TAG_FREE_FLASH : Nat := 0x35
def TAG_LOG_COUNT : Nat := 0x36

-- ===========================================================================
-- Device configuration state (the static globals of node_interface.cpp)
-- ===========================================================================

/-- Ambient runtime values sampled by the interpreter: `uptime_s` stands for
`millis() / 1000` at the moment of the call. -/
structure NodeEnv where
  uptime_s : Nat
deriving DecidableEq

/-- The static globals of node_interface.cpp.  `s_id` and `s_alias` model the
two `char[32]` arrays byte for byte (length-32 lists); the numeric fields
hold the two's-complement byte pattern of the C value as a natural number. -/
structure NodeState where
  s_id : List Nat
  s_alias : List Nat
  s_freq_hz : Nat
  s_sf : Nat
  s_bw_hz : Nat
  s_cr : Nat
  s_tx_pwr : Nat
  s_chan : Nat
  s_mode : Nat
  s_hops : Nat
  s_beacon_s : Nat
  s_buf_size : Nat
  s_ack_mode : Nat
  s_last_text : List Nat
deriving DecidableEq

/-- Pad a byte string to the 32-byte array that `strncpy(dst, src, 32)` leaves
behind for a NUL-terminated `src` shorter than 32 bytes. -/
def pad32 (s : List Nat) : List Nat := s ++ List.replicate (32 - s.length) 0

/-- Initial values of the globals (compile-time initializers). -/
def init_state : NodeState :=
  { s_id := pad32 [72, 99, 107, 114, 77, 110]  -- "HckrMn"
    s_alias := List.replicate 32 0
    s_freq_hz := 915000000
    s_sf := 9
    s_bw_hz := 125000
    s_cr := 5
    s_tx_pwr := 17
    s_chan := 0
    s_mode := 0
    s_hops := 1
    s_beacon_s := 0
    s_buf_size := 32
    s_ack_mode := 0
    s_last_text := [] }

-- ===========================================================================
-- Byte-level helpers
-- ===========================================================================

/-- Read `n` bytes of frame memory starting at offset `off` (the bytes a C
pointer `frame + off` would expose). -/
def mem_bytes (frame : List Nat) (off n : Nat) : List Nat :=
  (List.range n).map (fun k => frame.getD (off + k) 0)

/-- `strnlen`-style C-string contents of a byte array capped at 32 bytes:
the bytes before the first NUL. -/
def cstr (a : List Nat) : List Nat := (a.take 32).takeWhile (fun b => b != 0)

/-- `strncpy(dst, src, n)` on a byte array `dst`: positions below `n` receive
source bytes until the first NUL of `src`, then zeros; positions from `n` on
keep their old contents (no terminator is written). -/
def strncpy_arr (dst src : List Nat) (n : Nat) : List Nat :=
  (List.range dst.length).map (fun i =>
    if i < n then
      if (List.range (i + 1)).any (fun j => src.getD j 0 == 0) then 0
      else src.getD i 0
    else dst.getD i 0)

/-- Little-endian byte serialization of `tlv_put_le<T>`: byte `j` is
`(value >> (8*j)) & 0xFF`. -/
def le_bytes : Nat → Nat → List Nat
  | 0, _ => []
  | w + 1, v => v % 256 :: le_bytes w (v / 256)

/-- Little-endian accumulation loop of `tlv_read_le<T>`:
`out |= p[j] << (8*j)`. -/
def le_decode : List Nat → Nat
  | [] => 0
  | b :: rest => b + 256 * le_decode rest

-- ===========================================================================
-- TLV codec (frame_begin / tlv_put / tlv_put_le / frame_end / tlv_find /
-- tlv_read_le of node_interface.cpp)
-- ===========================================================================

/-- `tlv_put`: append tag, length and value bytes at the cursor. -/
def tlv_put (buf : List Nat) (tag : Nat) (v : List Nat) : List Nat :=
  buf ++ tag :: v.length :: v

/-- `tlv_put_le<T>`: append a `w`-byte little-endian integer TLV. -/
def tlv_put_le (buf : List Nat) (tag w value : Nat) : List Nat :=
  tlv_put buf tag (le_bytes w value)

/-- A frame as produced by `frame_begin` + appends + `frame_end`: the header
length byte is patched to `(cursor - 4)` cast to `uint8_t`. -/
def mk_frame (verb seq : Nat) (body : List Nat) : List Nat :=
  verb :: 0 :: seq :: body.length % 256 :: body

/-- `send_resp_err`: an empty RESP_ERR frame for `seq`. -/
def send_resp_err (seq : Nat) : List Nat := mk_frame Verb.RESP_ERR seq []

/-- Scan loop of `tlv_find` over offsets `[off, end_)` of frame memory.
Stops when fewer than two bytes remain, aborts with not-found when a record
declares a value running past `end_`, returns the value bytes of the first
record whose tag matches.  Fuel only bounds the iteration count; callers pass
the region length, which exceeds the largest possible iteration count. -/
def tlv_scan (frame : List Nat) (end_ tag : Nat) : Nat → Nat → Option (List Nat)
  | 0, _ => none
  | fuel + 1, off =>
    if off + 2 ≤ end_ then
      let t := frame.getD off 0
      let L := frame.getD (off + 1) 0
      if end_ < off + 2 + L then none
      else if t = tag then some (mem_bytes frame (off + 2) L)
      else tlv_scan frame end_ tag fuel (off + 2 + L)
    else none

/-- `tlv_find`: header check, TLV-region bounds check against the delivered
length, then the scan loop. -/
def tlv_find (frame : List Nat) (len tag : Nat) : Option (List Nat) :=
  if len < 4 then none
  else if len < 4 + frame.getD 3 0 then none
  else tlv_scan frame (4 + frame.getD 3 0) tag (frame.getD 3 0) 4

/-- `tlv_read_le<T>` for a `w`-byte integer: hard-fails unless the record
length equals `w` exactly. -/
def tlv_read_le (w : Nat) (p : List Nat) : Option Nat :=
  if p.length = w then some (le_decode p) else none

-- ===========================================================================
-- send_tag_value: serialize one tag from current state
-- ===========================================================================

/-- `send_tag_value`: append the TLV for `tag` out of the in-memory state.
Diagnostics are the placeholder constants of the source; `-42` and the other
signed constants appear as their two's-complement byte patterns. -/
def send_tag_value (env : NodeEnv) (st : NodeState) (buf : List Nat) (tag : Nat) : List Nat :=
  if tag = TAG_ID then tlv_put buf TAG_ID (cstr st.s_id)
  else if tag = TAG_ALIAS then tlv_put buf TAG_ALIAS (cstr st.s_alias)
  else if tag = TAG_FW_VERSION then tlv_put buf TAG_FW_VERSION [49, 46, 48, 46, 48]  -- "1.0.0"
  else if tag = TAG_UPTIME_S then tlv_put_le buf TAG_UPTIME_S 4 env.uptime_s
  else if tag = TAG_BOOT_TIME then tlv_put_le buf TAG_BOOT_TIME 4 0
  else if tag = TAG_FREQ_HZ then tlv_put_le buf TAG_FREQ_HZ 4 st.s_freq_hz
  else if tag = TAG_SF then tlv_put_le buf TAG_SF 1 st.s_sf
  else if tag = TAG_BW_HZ then tlv_put_le buf TAG_BW_HZ 4 st.s_bw_hz
  else if tag = TAG_CR then tlv_put_le buf TAG_CR 1 st.s_cr
  else if tag = TAG_TX_PWR_DBM then tlv_put_le buf TAG_TX_PWR_DBM 1 st.s_tx_pwr
  else if tag = TAG_CHAN then tlv_put_le buf TAG_CHAN 1 st.s_chan
  else if tag = TAG_MODE then tlv_put_le buf TAG_MODE 1 st.s_mode
  else if tag = TAG_HOPS then tlv_put_le buf TAG_HOPS 1 st.s_hops
  else if tag = TAG_BEACON_SEC then tlv_put_le buf TAG_BEACON_SEC 4 st.s_beacon_s
  else if tag = TAG_BUF_SIZE then tlv_put_le buf TAG_BUF_SIZE 2 st.s_buf_size
  else if tag = TAG_ACK_MODE then tlv_put_le buf TAG_ACK_MODE 1 st.s_ack_mode
  else if tag = TAG_RSSI_DBM then tlv_put_le buf TAG_RSSI_DBM 2 65494  -- int16 -42
  else if tag = TAG_SNR_DB then tlv_put_le buf TAG_SNR_DB 1 7
  else if tag = TAG_VBAT_MV then tlv_put_le buf TAG_VBAT_MV 2 3700
  else if tag = TAG_TEMP_C10 then tlv_put_le buf TAG_TEMP_C10 2 215
  else if tag = TAG_FREE_MEM then tlv_put_le buf TAG_FREE_MEM 4 123456
  else if tag = TAG_FREE_FLASH then tlv_put_le buf TAG_FREE_FLASH 4 654321
  else if tag = TAG_LOG_COUNT then tlv_put_le buf TAG_LOG_COUNT 2 0
  else buf

-- ===========================================================================
-- Validation helpers
-- ===========================================================================

/-- Character whitelist of `is_valid_id`: `[A-Za-z0-9_-]`. -/
def is_id_char (c : Nat) : Bool :=
  decide ((97 ≤ c ∧ c ≤ 122) ∨ (65 ≤ c ∧ c ≤ 90) ∨ (48 ≤ c ∧ c ≤ 57) ∨ c = 45 ∨ c = 95)

/-- `is_valid_id` on the C-string contents: length 1..31 and whitelisted
characters only. -/
def is_valid_id (s : List Nat) : Bool :=
  decide (1 ≤ s.length ∧ s.length ≤ 31) && s.all is_id_char

def is_valid_sf (v : Nat) : Bool := decide (7 ≤ v ∧ v ≤ 12)

def is_valid_cr (v : Nat) : Bool := decide (5 ≤ v ∧ v ≤ 8)

def is_valid_ack (v : Nat) : Bool := decide (v = 0 ∨ v = 1)

-- ===========================================================================
-- The frame interpreter: node_interface_on_packet
-- ===========================================================================

/-- Effect of one `node_interface_on_packet` call: the state the globals are
left in, the frames handed to `protocol_send` in order, and whether
`save_to_nvs` was invoked. -/
structure PacketResult where
  st : NodeState
  sent : List (List Nat)
  saved : Bool
deriving DecidableEq

/-- `node_interface_send_hello`: unsolicited RESP_OK, seq 0, TAG_ID only. -/
def node_interface_send_hello (env : NodeEnv) (st : NodeState) : List Nat :=
  mk_frame Verb.RESP_OK 0 (send_tag_value env st [] TAG_ID)

/-- GET_PARAM request scan: walk the declared TLV window `[off, end_)` of
frame memory; every record with length byte 0 appends that tag's current
value to the response body. -/
def get_param_scan (env : NodeEnv) (st : NodeState) (frame : List Nat) (end_ : Nat) :
    Nat → Nat → List Nat → List Nat
  | 0, _, buf => buf
  | fuel + 1, off, buf =>
    if off + 2 ≤ end_ then
      let t := frame.getD off 0
      let L := frame.getD (off + 1) 0
      get_param_scan env st frame end_ fuel (off + 2 + L)
        (if L = 0 then send_tag_value env st buf t else buf)
    else buf

/-- One record of the SET_PARAM scan (the inner `switch (t)`), given the `L`
value bytes `p` the source would read at the record's value pointer. -/
def set_param_apply (t : Nat) (p : List Nat) (st : NodeState) (ok : Bool) :
    NodeState × Bool :=
  if t = TAG_ALIAS then
    ({ st with s_alias := strncpy_arr st.s_alias p (min p.length 31) }, ok)
  else if t = TAG_FREQ_HZ then
    match tlv_read_le 4 p with
    | some v => ({ st with s_freq_hz := v }, ok)
    | none => (st, false)
  else if t = TAG_SF then
    match tlv_read_le 1 p with
    | some v => if is_valid_sf v then ({ st with s_sf := v }, ok) else (st, false)
    | none => (st, false)
  else if t = TAG_BW_HZ then
    match tlv_read_le 4 p with
    | some v => ({ st with s_bw_hz := v }, ok)
    | none => (st, false)
  else if t = TAG_CR then
    match tlv_read_le 1 p with
    | some v => if is_valid_cr v then ({ st with s_cr := v }, ok) else (st, false)
    | none => (st, false)
  else if t = TAG_TX_PWR_DBM then
    match tlv_read_le 1 p with
    | some v => ({ st with s_tx_pwr := v }, ok)
    | none => (st, false)
  else if t = TAG_CHAN then
    match tlv_read_le 1 p with
    | some v => ({ st with s_chan := v }, ok)
    | none => (st, false)
  else if t = TAG_MODE then
    match tlv_read_le 1 p with
    | some v => ({ st with s_mode := v }, ok)
    | none => (st, false)
  else if t = TAG_HOPS then
    match tlv_read_le 1 p with
    | some v => ({ st with s_hops := v }, ok)
    | none => (st, false)
  else if t = TAG_BEACON_SEC then
    match tlv_read_le 4 p with
    | some v => ({ st with s_beacon_s := v }, ok)
    | none => (st, false)
  else if t = TAG_BUF_SIZE then
    match tlv_read_le 2 p with
    | some v => ({ st with s_buf_size := v }, ok)
    | none => (st, false)
  else if t = TAG_ACK_MODE then
    match tlv_read_le 1 p with
    | some v => if is_valid_ack v then ({ st with s_ack_mode := v }, ok) else (st, false)
    | none => (st, false)
  else (st, ok)

/-- SET_PARAM request scan over the declared TLV window of frame memory,
applying recognized records to the state as it goes. -/
def set_param_scan (frame : List Nat) (end_ : Nat) :
    Nat → Nat → NodeState → Bool → NodeState × Bool
  | 0, _, st, ok => (st, ok)
  | fuel + 1, off, st, ok =>
    if off + 2 ≤ end_ then
      let t := frame.getD off 0
      let L := frame.getD (off + 1) 0
      let r := set_param_apply t (mem_bytes frame (off + 2) L) st ok
      set_param_scan frame end_ fuel (off + 2 + L) r.1 r.2
    else (st, ok)

/-- Echo list of the SET_PARAM success response (all settable tags, in the
order of the source). -/
def set_param_echo_tags : List Nat :=
  [TAG_ALIAS, TAG_FREQ_HZ, TAG_SF, TAG_BW_HZ, TAG_CR, TAG_TX_PWR_DBM,
   TAG_CHAN, TAG_MODE, TAG_HOPS, TAG_BEACON_SEC, TAG_BUF_SIZE, TAG_ACK_MODE]

/-- Tag list of the GET_ALL response, in the order of the source. -/
def get_all_tags : List Nat :=
  [TAG_ID, TAG_ALIAS, TAG_FREQ_HZ, TAG_SF, TAG_BW_HZ, TAG_CR, TAG_TX_PWR_DBM,
   TAG_CHAN, TAG_MODE, TAG_HOPS, TAG_BEACON_SEC, TAG_BUF_SIZE, TAG_ACK_MODE,
   TAG_RSSI_DBM, TAG_SNR_DB, TAG_VBAT_MV, TAG_TEMP_C10, TAG_FREE_MEM,
   TAG_FREE_FLASH, TAG_LOG_COUNT]

/-- `node_interface_on_packet(frame, len)`.  `frame` is the byte memory the
frame pointer exposes (it may extend past `len`, standing for adjacent
memory); `len` is the delivered frame length. -/
def node_interface_on_packet (env : NodeEnv) (st : NodeState) (frame : List Nat)
    (len : Nat) : PacketResult :=
  if len < 4 then ⟨st, [], false⟩
  else
    let verb := frame.getD 0 0
    let seq := frame.getD 2 0
    if verb = Verb.GET_ID ∨ verb = Verb.PING then
      ⟨st, [mk_frame Verb.RESP_OK seq (send_tag_value env st [] TAG_ID)], false⟩
    else if verb = Verb.SET_ID then
      match tlv_find frame len TAG_ID with
      | none => ⟨st, [send_resp_err seq], false⟩
      | some v =>
        if v.length = 0 then ⟨st, [send_resp_err seq], false⟩
        else
          -- copy = min(L, 31) bytes into tmp, NUL-terminate, then validate
          -- the resulting C string
          let tmp := (v.take 31).takeWhile (fun b => b != 0)
          if is_valid_id tmp then
            let st2 := { st with s_id := pad32 tmp }
            ⟨st2, [mk_frame Verb.RESP_OK seq (send_tag_value env st2 [] TAG_ID),
                   node_interface_send_hello env st2], true⟩
          else ⟨st, [send_resp_err seq], false⟩
    else if verb = Verb.GET_PARAM then
      ⟨st, [mk_frame Verb.RESP_OK seq
              (get_param_scan env st frame (4 + frame.getD 3 0) (frame.getD 3 0) 4 [])],
       false⟩
    else if verb = Verb.SET_PARAM then
      let r := set_param_scan frame (4 + frame.getD 3 0) (frame.getD 3 0) 4 st true
      if r.2 then
        ⟨r.1, [mk_frame Verb.RESP_OK seq (List.foldl (send_tag_value env r.1) [] set_param_echo_tags)], true⟩
      else ⟨r.1, [send_resp_err seq], false⟩
    else if verb = Verb.GET_ALL then
      ⟨st, [mk_frame Verb.RESP_OK seq (List.foldl (send_tag_value env st) [] get_all_tags)], false⟩
    else if verb = Verb.MSG then
      let L := frame.getD 3 0
      if len < 4 + L then ⟨st, [send_resp_err seq], false⟩
      else
        let st2 := { st with s_last_text := mem_bytes frame 4 (min L 63) }
        ⟨st2, [mk_frame Verb.RESP_OK seq (send_tag_value env st2 [] TAG_ID)], false⟩
    else ⟨st, [send_resp_err seq], false⟩

def env0 : NodeEnv := ⟨0⟩

-- ===========================================================================
-- Generic helper lemmas
-- ===========================================================================

lemma getD_append_add (A B : List Nat) (k : Nat) :
    (A ++ B).getD (A.length + k) 0 = B.getD k 0 := by
  rw [List.getD_append_right A B 0 (A.length + k) (Nat.le_add_right _ _)]
  simp

lemma range_map_getD (B : List Nat) (n : Nat) (h : n ≤ B.length) :
    (List.range n).map (fun k => B.getD k 0) = B.take n := by
  induction n with
  | zero => simp
  | succ n ih =>
    have hn : n < B.length := by omega
    rw [List.range_succ, List.map_append, ih (by omega), List.take_succ]
    simp [List.getElem?_eq_getElem hn, List.getD_eq_getElem B 0 hn]

lemma mem_bytes_append (A B : List Nat) (n : Nat) (h : n ≤ B.length) :
    mem_bytes (A ++ B) A.length n = B.take n := by
  unfold mem_bytes
  rw [← range_map_getD B n h]
  exact List.map_congr_left (fun k _ => getD_append_add A B k)

lemma mod_mul_decomp (n a b : Nat) (ha : 0 < a) :
    n % (a * b) = n % a + a * (n / a % b) := by
  rcases Nat.eq_zero_or_pos b with hb | hb
  · subst hb
    have := Nat.div_add_mod n a
    simp only [Nat.mul_zero, Nat.mod_zero]
    omega
  · have h1 : n = a * b * (n / a / b) + (a * (n / a % b) + n % a) := by
      have e2 := Nat.div_add_mod (n / a) b
      calc n = a * (n / a) + n % a := (Nat.div_add_mod n a).symm
        _ = a * (b * (n / a / b) + n / a % b) + n % a := by rw [e2]
        _ = a * b * (n / a / b) + (a * (n / a % b) + n % a) := by ring
    have h2 : a * (n / a % b) + n % a < a * b := by
      have hx : n / a % b < b := Nat.mod_lt _ hb
      have hy : n % a < a := Nat.mod_lt _ ha
      have hz : a * (n / a % b + 1) ≤ a * b := Nat.mul_le_mul_left a hx
      have hz2 : a * (n / a % b) + a ≤ a * b := by
        simpa [Nat.mul_add, Nat.mul_one] using hz
      omega
    calc n % (a * b) = (a * b * (n / a / b) + (a * (n / a % b) + n % a)) % (a * b) := by
          rw [← h1]
      _ = (a * (n / a % b) + n % a) % (a * b) := by rw [Nat.mul_add_mod]
      _ = a * (n / a % b) + n % a := Nat.mod_eq_of_lt h2
      _ = n % a + a * (n / a % b) := by omega

lemma le_bytes_length (w v : Nat) : (le_bytes w v).length = w := by
  induction w generalizing v with
  | zero => simp [le_bytes]
  | succ w ih => simp [le_bytes, ih]

lemma le_decode_le_bytes (w v : Nat) : le_decode (le_bytes w v) = v % 2 ^ (8 * w) := by
  induction w generalizing v with
  | zero => simp [le_bytes, le_decode, Nat.mod_one]
  | succ w ih =>
    have h2 : 2 ^ (8 * (w + 1)) = 256 * 2 ^ (8 * w) := by
      rw [Nat.mul_succ, pow_add]; ring
    rw [le_bytes, le_decode, ih, h2, mod_mul_decomp v 256 (2 ^ (8 * w)) (by norm_num)]

lemma tlv_read_le_le_bytes (w value : Nat) (h : value < 2 ^ (8 * w)) :
    tlv_read_le w (le_bytes w value) = some value := by
  rw [tlv_read_le, if_pos (le_bytes_length w value), le_decode_le_bytes,
    Nat.mod_eq_of_lt h]

lemma takeWhile_append_of_all {p : Nat → Bool} (s t : List Nat)
    (h : ∀ b ∈ s, p b = true) :
    (s ++ t).takeWhile p = s ++ t.takeWhile p := by
  induction s with
  | nil => simp
  | cons a s ih =>
    have ha : p a = true := h a (by simp)
    simp only [List.cons_append, List.takeWhile_cons, ha, if_true]
    rw [ih (fun b hb => h b (by simp [hb]))]

lemma cstr_pad32 (s : List Nat) (h31 : s.length ≤ 31) (hnz : ∀ b ∈ s, b ≠ 0) :
    cstr (pad32 s) = s := by
  have hlen : (pad32 s).length = 32 := by simp [pad32]; omega
  have htake : (pad32 s).take 32 = pad32 s :=
    List.take_of_length_le (by omega)
  rw [cstr, htake, pad32]
  have hk : 32 - s.length = (31 - s.length) + 1 := by omega
  rw [hk, List.replicate_succ,
    takeWhile_append_of_all s _ (fun b hb => by simpa using hnz b hb)]
  simp [List.takeWhile_cons]

lemma mem_takeWhile_ne_zero {l s : List Nat} (h : s = l.takeWhile (fun b => b != 0)) :
    ∀ b ∈ s, b ≠ 0 := by
  intro b hb
  subst h
  have := List.mem_takeWhile_imp hb
  simpa using this

lemma is_valid_id_bounds {s : List Nat} (h : is_valid_id s = true) :
    1 ≤ s.length ∧ s.length ≤ 31 := by
  rw [is_valid_id, Bool.and_eq_true, decide_eq_true_eq] at h
  exact h.1

-- ===========================================================================
-- TLV record lists and their encoding (bridge between the byte-level scan
-- loops and record-level reasoning)
-- ===========================================================================

/-- Wire encoding of a list of (tag, value) records, packed with no padding. -/
def encode_tlvs : List (Nat × List Nat) → List Nat
  | [] => []
  | (t, v) :: rs => t :: v.length :: (v ++ encode_tlvs rs)

lemma length_le_encode_tlvs (rs : List (Nat × List Nat)) :
    rs.length ≤ (encode_tlvs rs).length := by
  induction rs with
  | nil => simp [encode_tlvs]
  | cons r rs ih =>
    rcases r with ⟨t, v⟩
    simp only [encode_tlvs, List.length_cons, List.length_append]
    omega

lemma encode_tlvs_cons_length (t : Nat) (v : List Nat) (rs : List (Nat × List Nat)) :
    (encode_tlvs ((t, v) :: rs)).length = v.length + (encode_tlvs rs).length + 2 := by
  simp [encode_tlvs]

/-- The SET_PARAM scan over an exactly encoded record region equals the
record-by-record left fold of `set_param_apply`. -/
lemma set_param_scan_encode (rs : List (Nat × List Nat)) :
    ∀ (pre post : List Nat) (st : NodeState) (ok : Bool) (fuel : Nat),
      rs.length ≤ fuel →
      set_param_scan (pre ++ (encode_tlvs rs ++ post))
          (pre.length + (encode_tlvs rs).length) fuel pre.length st ok
        = rs.foldl (fun a r => set_param_apply r.1 r.2 a.1 a.2) (st, ok) := by
  induction rs with
  | nil =>
    intro pre post st ok fuel _
    cases fuel with
    | zero => simp [set_param_scan, encode_tlvs]
    | succ fuel =>
      rw [encode_tlvs, set_param_scan, if_neg (by simp)]
      simp
  | cons r rs ih =>
    rcases r with ⟨t, v⟩
    intro pre post st ok fuel hfuel
    simp only [List.length_cons] at hfuel
    cases fuel with
    | zero => simp at hfuel
    | succ fuel =>
      have hlen := encode_tlvs_cons_length t v rs
      have hc : pre.length + 2 ≤ pre.length + (encode_tlvs ((t, v) :: rs)).length := by
        omega
      have hget0 : (pre ++ (encode_tlvs ((t, v) :: rs) ++ post)).getD pre.length 0 = t := by
        simpa [encode_tlvs] using
          getD_append_add pre ((t :: v.length :: (v ++ encode_tlvs rs)) ++ post) 0
      have hget1 : (pre ++ (encode_tlvs ((t, v) :: rs) ++ post)).getD (pre.length + 1) 0
          = v.length := by
        simpa [encode_tlvs] using
          getD_append_add pre ((t :: v.length :: (v ++ encode_tlvs rs)) ++ post) 1
      have hrearr : pre ++ (encode_tlvs ((t, v) :: rs) ++ post)
          = (pre ++ [t, v.length]) ++ (v ++ (encode_tlvs rs ++ post)) := by
        simp [encode_tlvs]
      have hmem : mem_bytes (pre ++ (encode_tlvs ((t, v) :: rs) ++ post))
          (pre.length + 2) v.length = v := by
        rw [hrearr]
        have hA : (pre ++ [t, v.length]).length = pre.length + 2 := by simp
        rw [← hA, mem_bytes_append _ _ _ (by simp)]
        exact List.take_left v _
      rw [set_param_scan, if_pos hc]
      simp only [hget0, hget1, hmem]
      have hframe2 : pre ++ (encode_tlvs ((t, v) :: rs) ++ post)
          = ((pre ++ [t, v.length]) ++ v) ++ (encode_tlvs rs ++ post) := by
        simp [encode_tlvs]
      have hoff2 : pre.length + 2 + v.length = ((pre ++ [t, v.length]) ++ v).length := by
        simp; omega
      have hend2 : pre.length + (encode_tlvs ((t, v) :: rs)).length
          = ((pre ++ [t, v.length]) ++ v).length + (encode_tlvs rs).length := by
        simp [hlen]; omega
      rw [hframe2, hoff2, hend2,
        ih ((pre ++ [t, v.length]) ++ v) post _ _ fuel (by omega)]
      simp

/-- The `tlv_find` scan result depends only on the frame bytes below `end_`:
the loop never reads at or past the region end. -/
lemma tlv_scan_congr :
    ∀ (fuel : Nat) (f g : List Nat) (end_ tag off : Nat),
      (∀ i, i < end_ → f.getD i 0 = g.getD i 0) →
      tlv_scan f end_ tag fuel off = tlv_scan g end_ tag fuel off := by
  intro fuel
  induction fuel with
  | zero => intro f g end_ tag off _; rfl
  | succ fuel ih =>
    intro f g end_ tag off h
    rw [tlv_scan, tlv_scan]
    by_cases hc : off + 2 ≤ end_
    · rw [if_pos hc, if_pos hc]
      have h0 : f.getD off 0 = g.getD off 0 := h off (by omega)
      have h1 : f.getD (off + 1) 0 = g.getD (off + 1) 0 := h (off + 1) (by omega)
      simp only [h0, h1]
      by_cases hov : end_ < off + 2 + g.getD (off + 1) 0
      · rw [if_pos hov, if_pos hov]
      · rw [if_neg hov, if_neg hov]
        by_cases ht : g.getD off 0 = tag
        · rw [if_pos ht, if_pos ht]
          congr 1
          unfold mem_bytes
          apply List.map_congr_left
          intro k hk
          have hk2 : k < g.getD (off + 1) 0 := List.mem_range.mp hk
          exact h (off + 2 + k) (by omega)
        · rw [if_neg ht, if_neg ht]
          exact ih f g end_ tag _ h
    · rw [if_neg hc, if_neg hc]

/-- The `tlv_find` scan walks straight over an exactly encoded run of records
none of which carries the wanted tag. -/
lemma tlv_scan_encode_skip (rs : List (Nat × List Nat)) :
    ∀ (pre post : List Nat) (tag fuel end_ : Nat),
      (∀ r ∈ rs, r.1 ≠ tag) →
      rs.length ≤ fuel →
      pre.length + (encode_tlvs rs).length ≤ end_ →
      tlv_scan (pre ++ (encode_tlvs rs ++ post)) end_ tag fuel pre.length
        = tlv_scan (pre ++ (encode_tlvs rs ++ post)) end_ tag (fuel - rs.length)
            (pre.length + (encode_tlvs rs).length) := by
  induction rs with
  | nil => intro pre post tag fuel end_ _ _ _; simp [encode_tlvs]
  | cons r rs ih =>
    rcases r with ⟨t, v⟩
    intro pre post tag fuel end_ hnt hfuel hend
    simp only [List.length_cons] at hfuel
    rw [encode_tlvs_cons_length] at hend
    cases fuel with
    | zero => omega
    | succ fuel =>
      have hc : pre.length + 2 ≤ end_ := by omega
      have hget0 : (pre ++ (encode_tlvs ((t, v) :: rs) ++ post)).getD pre.length 0 = t := by
        simpa [encode_tlvs] using
          getD_append_add pre ((t :: v.length :: (v ++ encode_tlvs rs)) ++ post) 0
      have hget1 : (pre ++ (encode_tlvs ((t, v) :: rs) ++ post)).getD (pre.length + 1) 0
          = v.length := by
        simpa [encode_tlvs] using
          getD_append_add pre ((t :: v.length :: (v ++ encode_tlvs rs)) ++ post) 1
      rw [tlv_scan, if_pos hc]
      simp only [hget0, hget1]
      rw [if_neg (by omega), if_neg (hnt (t, v) (by simp))]
      have hframe2 : pre ++ (encode_tlvs ((t, v) :: rs) ++ post)
          = ((pre ++ [t, v.length]) ++ v) ++ (encode_tlvs rs ++ post) := by
        simp [encode_tlvs]
      have hoff2 : pre.length + 2 + v.length = ((pre ++ [t, v.length]) ++ v).length := by
        simp; omega
      rw [hframe2, hoff2,
        ih ((pre ++ [t, v.length]) ++ v) post tag fuel end_
          (fun r hr => hnt r (by simp [hr])) (by omega) (by simp; omega)]
      have h1 : fuel + 1 - ((t, v) :: rs).length = fuel - rs.length := by simp
      have h2 : pre.length + (encode_tlvs ((t, v) :: rs)).length
          = ((pre ++ [t, v.length]) ++ v).length + (encode_tlvs rs).length := by
        rw [encode_tlvs_cons_length]; simp; omega
      rw [h1, h2]

-- ===========================================================================
-- Case lemmas about set_param_apply
-- ===========================================================================

/-- Once the running ok flag is false it stays false: no record handler ever
sets it back to true. -/
lemma set_param_apply_ok_false (t : Nat) (p : List Nat) (st : NodeState) :
    (set_param_apply t p st false).2 = false := by
  unfold set_param_apply
  by_cases h1 : t = TAG_ALIAS
  · rw [if_pos h1]
  · rw [if_neg h1]
    by_cases h2 : t = TAG_FREQ_HZ
    · rw [if_pos h2]
      rcases hr : tlv_read_le 4 p with _ | v <;> rfl
    · rw [if_neg h2]
      by_cases h3 : t = TAG_SF
      · rw [if_pos h3]
        rcases hr : tlv_read_le 1 p with _ | v
        · rfl
        · split <;> first | rfl | (split <;> rfl)
      · rw [if_neg h3]
        by_cases h4 : t = TAG_BW_HZ
        · rw [if_pos h4]
          rcases hr : tlv_read_le 4 p with _ | v <;> rfl
        · rw [if_neg h4]
          by_cases h5 : t = TAG_CR
          · rw [if_pos h5]
            rcases hr : tlv_read_le 1 p with _ | v
            · rfl
            · split <;> first | rfl | (split <;> rfl)
          · rw [if_neg h5]
            by_cases h6 : t = TAG_TX_PWR_DBM
            · rw [if_pos h6]
              rcases hr : tlv_read_le 1 p with _ | v <;> rfl
            · rw [if_neg h6]
              by_cases h7 : t = TAG_CHAN
              · rw [if_pos h7]
                rcases hr : tlv_read_le 1 p with _ | v <;> rfl
              · rw [if_neg h7]
                by_cases h8 : t = TAG_MODE
                · rw [if_pos h8]
                  rcases hr : tlv_read_le 1 p with _ | v <;> rfl
                · rw [if_neg h8]
                  by_cases h9 : t = TAG_HOPS
                  · rw [if_pos h9]
                    rcases hr : tlv_read_le 1 p with _ | v <;> rfl
                  · rw [if_neg h9]
                    by_cases h10 : t = TAG_BEACON_SEC
                    · rw [if_pos h10]
                      rcases hr : tlv_read_le 4 p with _ | v <;> rfl
                    · rw [if_neg h10]
                      by_cases h11 : t = TAG_BUF_SIZE
                      · rw [if_pos h11]
                        rcases hr : tlv_read_le 2 p with _ | v <;> rfl
                      · rw [if_neg h11]
                        by_cases h12 : t = TAG_ACK_MODE
                        · rw [if_pos h12]
                          rcases hr : tlv_read_le 1 p with _ | v
                          · rfl
                          · split <;> first | rfl | (split <;> rfl)
                        · rw [if_neg h12]

/-- Only a TAG_SF record can change the stored spreading factor. -/
lemma set_param_apply_sf_ne (t : Nat) (p : List Nat) (st : NodeState) (ok : Bool)
    (hne : t ≠ TAG_SF) : ((set_param_apply t p st ok).1).s_sf = st.s_sf := by
  unfold set_param_apply
  by_cases h1 : t = TAG_ALIAS
  · rw [if_pos h1]
  · rw [if_neg h1]
    by_cases h2 : t = TAG_FREQ_HZ
    · rw [if_pos h2]
      rcases hr : tlv_read_le 4 p with _ | v <;> rfl
    · rw [if_neg h2]
      by_cases h3 : t = TAG_SF
      · exact absurd h3 hne
      · rw [if_neg h3]
        by_cases h4 : t = TAG_BW_HZ
        · rw [if_pos h4]
          rcases hr : tlv_read_le 4 p with _ | v <;> rfl
        · rw [if_neg h4]
          by_cases h5 : t = TAG_CR
          · rw [if_pos h5]
            rcases hr : tlv_read_le 1 p with _ | v
            · rfl
            · split <;> first | rfl | (split <;> rfl)
          · rw [if_neg h5]
            by_cases h6 : t = TAG_TX_PWR_DBM
            · rw [if_pos h6]
              rcases hr : tlv_read_le 1 p with _ | v <;> rfl
            · rw [if_neg h6]
              by_cases h7 : t = TAG_CHAN
              · rw [if_pos h7]
                rcases hr : tlv_read_le 1 p with _ | v <;> rfl
              · rw [if_neg h7]
                by_cases h8 : t = TAG_MODE
                · rw [if_pos h8]
                  rcases hr : tlv_read_le 1 p with _ | v <;> rfl
                · rw [if_neg h8]
                  by_cases h9 : t = TAG_HOPS
                  · rw [if_pos h9]
                    rcases hr : tlv_read_le 1 p with _ | v <;> rfl
                  · rw [if_neg h9]
                    by_cases h10 : t = TAG_BEACON_SEC
                    · rw [if_pos h10]
                      rcases hr : tlv_read_le 4 p with _ | v <;> rfl
                    · rw [if_neg h10]
                      by_cases h11 : t = TAG_BUF_SIZE
                      · rw [if_pos h11]
                        rcases hr : tlv_read_le 2 p with _ | v <;> rfl
                      · rw [if_neg h11]
                        by_cases h12 : t = TAG_ACK_MODE
                        · rw [if_pos h12]
                          rcases hr : tlv_read_le 1 p with _ | v
                          · rfl
                          · split <;> first | rfl | (split <;> rfl)
                        · rw [if_neg h12]

/-- A TAG_SF record whose decoded value fails validation leaves the state
untouched and forces the failure flag. -/
lemma set_param_apply_sf_invalid (p : List Nat) (st : NodeState) (ok : Bool)
    (h : ∀ v, tlv_read_le 1 p = some v → is_valid_sf v = false) :
    set_param_apply TAG_SF p st ok = (st, false) := by
  unfold set_param_apply
  rw [if_neg (by decide), if_neg (by decide), if_pos rfl]
  rcases hr : tlv_read_le 1 p with _ | v
  · rfl
  · simp [h v hr]

/-- A record with an unrecognized tag is ignored entirely. -/
lemma set_param_apply_unknown (t : Nat) (p : List Nat) (st : NodeState) (ok : Bool)
    (h : t ∉ ([TAG_ALIAS, TAG_FREQ_HZ, TAG_SF, TAG_BW_HZ, TAG_CR, TAG_TX_PWR_DBM,
               TAG_CHAN, TAG_MODE, TAG_HOPS, TAG_BEACON_SEC, TAG_BUF_SIZE,
               TAG_ACK_MODE] : List Nat)) :
    set_param_apply t p st ok = (st, ok) := by
  simp only [List.mem_cons, List.not_mem_nil, or_false, not_or] at h
  obtain ⟨h1, h2, h3, h4, h5, h6, h7, h8, h9, h10, h11, h12⟩ := h
  unfold set_param_apply
  rw [if_neg h1, if_neg h2, if_neg h3, if_neg h4, if_neg h5, if_neg h6,
    if_neg h7, if_neg h8, if_neg h9, if_neg h10, if_neg h11, if_neg h12]

/-- A well-formed 4-byte TAG_FREQ_HZ record is applied to the state as it is
scanned, whatever the running flag is. -/
lemma set_param_apply_freq (v : List Nat) (st : NodeState) (ok : Bool)
    (h : v.length = 4) :
    set_param_apply TAG_FREQ_HZ v st ok = ({ st with s_freq_hz := le_decode v }, ok) := by
  unfold set_param_apply
  rw [if_neg (by decide), if_pos rfl]
  simp [tlv_read_le, h]

lemma set_param_scan_foldl_ok_false (rs : List (Nat × List Nat)) :
    ∀ (a : NodeState × Bool), a.2 = false →
      (rs.foldl (fun a r => set_param_apply r.1 r.2 a.1 a.2) a).2 = false := by
  induction rs with
  | nil => intro a h; simpa using h
  | cons r rs ih =>
    intro a h
    rw [List.foldl_cons]
    exact ih _ (by rw [h]; exact set_param_apply_ok_false r.1 r.2 a.1)

lemma set_param_scan_foldl_sf (rs : List (Nat × List Nat)) :
    ∀ (a : NodeState × Bool), (∀ r ∈ rs, r.1 ≠ TAG_SF) →
      ((rs.foldl (fun a r => set_param_apply r.1 r.2 a.1 a.2) a).1).s_sf = a.1.s_sf := by
  induction rs with
  | nil => intro a _; rfl
  | cons r rs ih =>
    intro a h
    rw [List.foldl_cons]
    rw [ih _ (fun r hr => h r (by simp [hr]))]
    exact set_param_apply_sf_ne r.1 r.2 a.1 a.2 (h r (by simp))

lemma tlv_read_le_singleton (v : Nat) : tlv_read_le 1 [v] = some v := by
  simp [tlv_read_le, le_decode]

-- ===========================================================================
-- Dispatch lemmas: one per verb path of node_interface_on_packet
-- ===========================================================================

lemma on_packet_get_id (env : NodeEnv) (st : NodeState) (frame : List Nat) (len : Nat)
    (h4 : 4 ≤ len)
    (hv : frame.getD 0 0 = Verb.GET_ID ∨ frame.getD 0 0 = Verb.PING) :
    node_interface_on_packet env st frame len =
      ⟨st, [mk_frame Verb.RESP_OK (frame.getD 2 0) (send_tag_value env st [] TAG_ID)],
       false⟩ := by
  unfold node_interface_on_packet
  rw [if_neg (by omega), if_pos hv]

lemma on_packet_set_param_err (env : NodeEnv) (st : NodeState) (frame : List Nat) (len : Nat)
    (h4 : 4 ≤ len) (hv : frame.getD 0 0 = Verb.SET_PARAM)
    (hfail : (set_param_scan frame (4 + frame.getD 3 0) (frame.getD 3 0) 4 st true).2 = false) :
    node_interface_on_packet env st frame len =
      ⟨(set_param_scan frame (4 + frame.getD 3 0) (frame.getD 3 0) 4 st true).1,
       [send_resp_err (frame.getD 2 0)], false⟩ := by
  unfold node_interface_on_packet
  rw [if_neg (by omega)]
  simp only [hv, hfail]
  rw [if_neg (by decide), if_neg (by decide), if_neg (by decide), if_pos trivial,
    if_neg (show ¬(false = true) by decide)]

lemma on_packet_get_param (env : NodeEnv) (st : NodeState) (frame : List Nat) (len : Nat)
    (h4 : 4 ≤ len) (hv : frame.getD 0 0 = Verb.GET_PARAM) :
    node_interface_on_packet env st frame len =
      ⟨st, [mk_frame Verb.RESP_OK (frame.getD 2 0)
              (get_param_scan env st frame (4 + frame.getD 3 0) (frame.getD 3 0) 4 [])],
       false⟩ := by
  unfold node_interface_on_packet
  rw [if_neg (by omega)]
  simp only [hv]
  rw [if_neg (by decide), if_neg (by decide), if_pos trivial]

lemma on_packet_get_all (env : NodeEnv) (st : NodeState) (frame : List Nat) (len : Nat)
    (h4 : 4 ≤ len) (hv : frame.getD 0 0 = Verb.GET_ALL) :
    node_interface_on_packet env st frame len =
      ⟨st, [mk_frame Verb.RESP_OK (frame.getD 2 0)
              (List.foldl (send_tag_value env st) [] get_all_tags)],
       false⟩ := by
  unfold node_interface_on_packet
  rw [if_neg (by omega)]
  simp only [hv]
  rw [if_neg (by decide), if_neg (by decide), if_neg (by decide), if_neg (by decide),
    if_pos trivial]

lemma on_packet_set_id_ok (env : NodeEnv) (st : NodeState) (frame : List Nat) (len : Nat)
    (v : List Nat)
    (h4 : 4 ≤ len) (hv : frame.getD 0 0 = Verb.SET_ID)
    (hfind : tlv_find frame len TAG_ID = some v)
    (hvalid : is_valid_id ((v.take 31).takeWhile (fun b => b != 0)) = true) :
    node_interface_on_packet env st frame len =
      ⟨{ st with s_id := pad32 ((v.take 31).takeWhile (fun b => b != 0)) },
       [mk_frame Verb.RESP_OK (frame.getD 2 0)
          (send_tag_value env
            { st with s_id := pad32 ((v.take 31).takeWhile (fun b => b != 0)) } [] TAG_ID),
        node_interface_send_hello env
          { st with s_id := pad32 ((v.take 31).takeWhile (fun b => b != 0)) }],
       true⟩ := by
  have hne : ¬ v.length = 0 := by
    intro h0
    rw [List.length_eq_zero] at h0
    subst h0
    simp [is_valid_id] at hvalid
  unfold node_interface_on_packet
  rw [if_neg (by omega)]
  simp only [hv, hfind]
  rw [if_neg (by decide), if_pos trivial]
  rw [if_neg hne, if_pos hvalid]

lemma on_packet_set_id_err (env : NodeEnv) (st : NodeState) (frame : List Nat) (len : Nat)
    (h4 : 4 ≤ len) (hv : frame.getD 0 0 = Verb.SET_ID)
    (herr : tlv_find frame len TAG_ID = none ∨
      ∃ v, tlv_find frame len TAG_ID = some v ∧
        (v.length = 0 ∨ is_valid_id ((v.take 31).takeWhile (fun b => b != 0)) = false)) :
    node_interface_on_packet env st frame len =
      ⟨st, [send_resp_err (frame.getD 2 0)], false⟩ := by
  unfold node_interface_on_packet
  rw [if_neg (by omega)]
  rcases herr with hnone | ⟨v, hfind, hbad⟩
  · simp only [hv, hnone]
    rw [if_neg (by decide), if_pos trivial]
  · simp only [hv, hfind]
    rw [if_neg (by decide), if_pos trivial]
    rcases hbad with h0 | hinv
    · rw [if_pos h0]
    · by_cases h0 : v.length = 0
      · rw [if_pos h0]
      · rw [if_neg h0, if_neg (by rw [hinv]; decide)]

-- ===========================================================================
-- Claims
-- ===========================================================================

/-- Claim C5: tlv_find scans only the declared TLV window, returns the first
matching record, never reads past the declared region or the supplied length,
and treats short frames, overrunning regions and overrunning records as
not-found. -/
theorem C5_tlv_find_spec :
    (∀ (frame : List Nat) (len tag : Nat), len < 4 → tlv_find frame len tag = none)
    ∧ (∀ (frame : List Nat) (len tag : Nat), len < 4 + frame.getD 3 0 →
        tlv_find frame len tag = none)
    ∧ (∀ (f g : List Nat) (len tag : Nat),
        (∀ i, i < 4 + f.getD 3 0 → f.getD i 0 = g.getD i 0) →
        tlv_find f len tag = tlv_find g len tag)
    ∧ (∀ (frame : List Nat) (end_ tag fuel off : Nat),
        off + 2 ≤ end_ → end_ < off + 2 + frame.getD (off + 1) 0 →
        tlv_scan frame end_ tag fuel off = none)
    ∧ (∀ (frame : List Nat) (end_ tag fuel off : Nat),
        off + 2 ≤ end_ → off + 2 + frame.getD (off + 1) 0 ≤ end_ →
        frame.getD off 0 = tag →
        tlv_scan frame end_ tag (fuel + 1) off
          = some (mem_bytes frame (off + 2) (frame.getD (off + 1) 0)))
    ∧ (∀ (frame : List Nat) (end_ tag fuel off : Nat),
        off + 2 ≤ end_ → off + 2 + frame.getD (off + 1) 0 ≤ end_ →
        frame.getD off 0 ≠ tag →
        tlv_scan frame end_ tag (fuel + 1) off
          = tlv_scan frame end_ tag fuel (off + 2 + frame.getD (off + 1) 0))
    ∧ (∀ (frame : List Nat) (len tag : Nat),
        4 ≤ len → 4 + frame.getD 3 0 ≤ len →
        tlv_find frame len tag
          = tlv_scan frame (4 + frame.getD 3 0) tag (frame.getD 3 0) 4) := by
  refine ⟨?_, ?_, ?_, ?_, ?_, ?_, ?_⟩
  · intro frame len tag h
    rw [tlv_find, if_pos h]
  · intro frame len tag h
    rw [tlv_find]
    by_cases h4 : len < 4
    · rw [if_pos h4]
    · rw [if_neg h4, if_pos h]
  · intro f g len tag h
    have h3 : f.getD 3 0 = g.getD 3 0 := h 3 (by omega)
    rw [tlv_find, tlv_find, ← h3]
    by_cases h4 : len < 4
    · rw [if_pos h4, if_pos h4]
    · rw [if_neg h4, if_neg h4]
      by_cases hg : len < 4 + f.getD 3 0
      · rw [if_pos hg, if_pos hg]
      · rw [if_neg hg, if_neg hg]
        exact tlv_scan_congr _ f g _ tag 4 (fun i hi => h i hi)
  · intro frame end_ tag fuel off h1 h2
    cases fuel with
    | zero => rfl
    | succ fuel =>
      rw [tlv_scan]
      simp only
      rw [if_pos h1, if_pos h2]
  · intro frame end_ tag fuel off h1 h2 h3
    rw [tlv_scan]
    simp only
    rw [if_pos h1, if_neg (by omega), if_pos h3]
  · intro frame end_ tag fuel off h1 h2 h3
    rw [tlv_scan]
    simp only
    rw [if_pos h1, if_neg (by omega), if_neg h3]
  · intro frame len tag h1 h2
    rw [tlv_find, if_neg (by omega), if_neg (by omega)]

/-- Witness for C5: the header-shortness conjunct applied to a concrete
3-byte frame. -/
theorem C5_tlv_find_spec_witness :
    (3 : Nat) < 4 ∧ tlv_find [1, 2, 3] 3 5 = none :=
  ⟨by decide, C5_tlv_find_spec.1 [1, 2, 3] 3 5 (by decide)⟩

/-- Claim C9: TLV round-trip.  Appending a w-byte little-endian integer with
tlv_put_le behind any run of records not bearing the same tag, then locating
it with tlv_find and decoding with tlv_read_le, returns exactly the original
value; tlv_read_le succeeds if and only if the record length equals w. -/
theorem C9_tlv_round_trip :
    (∀ (verb seq tag w value : Nat) (rs : List (Nat × List Nat)),
        0 < w → value < 2 ^ (8 * w) →
        (∀ r ∈ rs, r.1 ≠ tag) →
        (encode_tlvs rs).length + 2 + w ≤ 255 →
        tlv_find (mk_frame verb seq (encode_tlvs rs ++ tlv_put_le [] tag w value))
            (mk_frame verb seq (encode_tlvs rs ++ tlv_put_le [] tag w value)).length tag
          = some (le_bytes w value)
        ∧ tlv_read_le w (le_bytes w value) = some value)
    ∧ (∀ (w : Nat) (p : List Nat), (∃ u, tlv_read_le w p = some u) ↔ p.length = w) := by
  constructor
  · intro verb seq tag w value rs hw hval hnt hcap
    have hle := length_le_encode_tlvs rs
    have hlb : (le_bytes w value).length = w := le_bytes_length w value
    have hput : tlv_put_le [] tag w value = tag :: w :: le_bytes w value := by
      rw [tlv_put_le, tlv_put, hlb]
      rfl
    have hBlen : (encode_tlvs rs ++ tlv_put_le [] tag w value).length
        = (encode_tlvs rs).length + 2 + w := by
      rw [hput]
      simp [hlb]
      omega
    have hmod : (encode_tlvs rs ++ tlv_put_le [] tag w value).length % 256
        = (encode_tlvs rs).length + 2 + w := by
      rw [hBlen]
      exact Nat.mod_eq_of_lt (by omega)
    refine ⟨?_, tlv_read_le_le_bytes w value hval⟩
    have hframe : mk_frame verb seq (encode_tlvs rs ++ tlv_put_le [] tag w value)
        = [verb, 0, seq, (encode_tlvs rs).length + 2 + w]
            ++ (encode_tlvs rs ++ (tag :: w :: le_bytes w value)) := by
      rw [mk_frame, hmod, hput]
      rfl
    have hgd3 : (mk_frame verb seq (encode_tlvs rs ++ tlv_put_le [] tag w value)).getD 3 0
        = (encode_tlvs rs).length + 2 + w := by
      rw [hframe]
      rfl
    have hlen : (mk_frame verb seq (encode_tlvs rs ++ tlv_put_le [] tag w value)).length
        = 4 + ((encode_tlvs rs).length + 2 + w) := by
      rw [hframe]
      simp [hlb]
      omega
    rw [tlv_find, hgd3, hlen,
      if_neg (show ¬(4 + ((encode_tlvs rs).length + 2 + w) < 4) by omega),
      if_neg (show ¬(4 + ((encode_tlvs rs).length + 2 + w)
        < 4 + ((encode_tlvs rs).length + 2 + w)) by omega),
      hframe]
    have hskip := tlv_scan_encode_skip rs
      [verb, 0, seq, (encode_tlvs rs).length + 2 + w]
      (tag :: w :: le_bytes w value) tag ((encode_tlvs rs).length + 2 + w)
      (4 + ((encode_tlvs rs).length + 2 + w)) hnt (by omega) (by simp; omega)
    show tlv_scan
        ([verb, 0, seq, (encode_tlvs rs).length + 2 + w]
          ++ (encode_tlvs rs ++ (tag :: w :: le_bytes w value)))
        (4 + ((encode_tlvs rs).length + 2 + w)) tag ((encode_tlvs rs).length + 2 + w)
        ([verb, 0, seq, (encode_tlvs rs).length + 2 + w] : List Nat).length
      = some (le_bytes w value)
    rw [hskip,
      show ([verb, 0, seq, (encode_tlvs rs).length + 2 + w] : List Nat).length = 4 from rfl]
    obtain ⟨m, hm⟩ : ∃ m, (encode_tlvs rs).length + 2 + w - rs.length = m + 1 :=
      ⟨(encode_tlvs rs).length + 2 + w - rs.length - 1, by omega⟩
    rw [hm, tlv_scan]
    simp only
    have hget0 : ([verb, 0, seq, (encode_tlvs rs).length + 2 + w]
        ++ (encode_tlvs rs ++ (tag :: w :: le_bytes w value))).getD
        (4 + (encode_tlvs rs).length) 0 = tag := by
      rw [show [verb, 0, seq, (encode_tlvs rs).length + 2 + w]
            ++ (encode_tlvs rs ++ (tag :: w :: le_bytes w value))
          = ([verb, 0, seq, (encode_tlvs rs).length + 2 + w] ++ encode_tlvs rs)
            ++ (tag :: w :: le_bytes w value) by simp,
        show 4 + (encode_tlvs rs).length
          = ([verb, 0, seq, (encode_tlvs rs).length + 2 + w] ++ encode_tlvs rs).length
          by simp; omega]
      simpa using getD_append_add
        ([verb, 0, seq, (encode_tlvs rs).length + 2 + w] ++ encode_tlvs rs)
        (tag :: w :: le_bytes w value) 0
    have hget1 : ([verb, 0, seq, (encode_tlvs rs).length + 2 + w]
        ++ (encode_tlvs rs ++ (tag :: w :: le_bytes w value))).getD
        (4 + (encode_tlvs rs).length + 1) 0 = w := by
      rw [show [verb, 0, seq, (encode_tlvs rs).length + 2 + w]
            ++ (encode_tlvs rs ++ (tag :: w :: le_bytes w value))
          = ([verb, 0, seq, (encode_tlvs rs).length + 2 + w] ++ encode_tlvs rs)
            ++ (tag :: w :: le_bytes w value) by simp,
        show 4 + (encode_tlvs rs).length + 1
          = ([verb, 0, seq, (encode_tlvs rs).length + 2 + w] ++ encode_tlvs rs).length + 1
          by simp; omega]
      simpa using getD_append_add
        ([verb, 0, seq, (encode_tlvs rs).length + 2 + w] ++ encode_tlvs rs)
        (tag :: w :: le_bytes w value) 1
    rw [if_pos (show 4 + (encode_tlvs rs).length + 2
        ≤ 4 + ((encode_tlvs rs).length + 2 + w) by omega),
      hget0, hget1,
      if_neg (show ¬(4 + ((encode_tlvs rs).length + 2 + w)
        < 4 + (encode_tlvs rs).length + 2 + w) by omega),
      if_pos rfl]
    congr 1
    rw [show [verb, 0, seq, (encode_tlvs rs).length + 2 + w]
          ++ (encode_tlvs rs ++ (tag :: w :: le_bytes w value))
        = (([verb, 0, seq, (encode_tlvs rs).length + 2 + w] ++ encode_tlvs rs) ++ [tag, w])
          ++ le_bytes w value by simp,
      show 4 + (encode_tlvs rs).length + 2
        = (([verb, 0, seq, (encode_tlvs rs).length + 2 + w] ++ encode_tlvs rs)
            ++ [tag, w]).length by simp; omega,
      mem_bytes_append _ _ _ (by omega)]
    exact List.take_of_length_le (le_of_eq hlb)
  · intro w p
    constructor
    · rintro ⟨u, hu⟩
      by_cases h : p.length = w
      · exact h
      · rw [tlv_read_le, if_neg h] at hu
        cases hu
    · intro h
      exact ⟨le_decode p, by rw [tlv_read_le, if_pos h]⟩

/-- Witness for C9: round-tripping the default frequency 915000000 through a
4-byte TAG_FREQ_HZ record behind one unrelated record. -/
theorem C9_tlv_round_trip_witness :
    (0 : Nat) < 4 ∧ 915000000 < 2 ^ (8 * 4) ∧
    (tlv_find (mk_frame Verb.SET_PARAM 9 (encode_tlvs [(TAG_SF, [9])] ++ tlv_put_le [] TAG_FREQ_HZ 4 915000000))
        (mk_frame Verb.SET_PARAM 9 (encode_tlvs [(TAG_SF, [9])] ++ tlv_put_le [] TAG_FREQ_HZ 4 915000000)).length
        TAG_FREQ_HZ
      = some (le_bytes 4 915000000)
    ∧ tlv_read_le 4 (le_bytes 4 915000000) = some 915000000) :=
  ⟨by decide, by decide,
   C9_tlv_round_trip.1 Verb.SET_PARAM 9 TAG_FREQ_HZ 4 915000000 [(TAG_SF, [9])]
     (by decide) (by decide) (by decide) (by decide)⟩

lemma send_tag_id (env : NodeEnv) (st : NodeState) :
    send_tag_value env st [] TAG_ID = TAG_ID :: (cstr st.s_id).length :: cstr st.s_id := by
  rw [send_tag_value, if_pos rfl]
  rfl

/-- Claim C6: a SET_ID frame whose TAG_ID value is valid after the 31-byte
clamp commits the new ID, persists, answers RESP_OK with the request seq and
TAG_ID equal to the new ID, then emits a separate hello frame (RESP_OK,
seq 0, TAG_ID only); a subsequent GET_ID returns the new ID. -/
theorem C6_set_id_success :
    ∀ (env : NodeEnv) (st : NodeState) (frame : List Nat) (len : Nat) (v : List Nat) (q : Nat),
      4 ≤ len →
      frame.getD 0 0 = Verb.SET_ID →
      tlv_find frame len TAG_ID = some v →
      is_valid_id ((v.take 31).takeWhile (fun b => b != 0)) = true →
      node_interface_on_packet env st frame len
        = ⟨{ st with s_id := pad32 ((v.take 31).takeWhile (fun b => b != 0)) },
           [mk_frame Verb.RESP_OK (frame.getD 2 0)
              (TAG_ID :: ((v.take 31).takeWhile (fun b => b != 0)).length
                :: (v.take 31).takeWhile (fun b => b != 0)),
            mk_frame Verb.RESP_OK 0
              (TAG_ID :: ((v.take 31).takeWhile (fun b => b != 0)).length
                :: (v.take 31).takeWhile (fun b => b != 0))],
           true⟩
      ∧ node_interface_on_packet env
          { st with s_id := pad32 ((v.take 31).takeWhile (fun b => b != 0)) }
          [Verb.GET_ID, 0, q, 0] 4
        = ⟨{ st with s_id := pad32 ((v.take 31).takeWhile (fun b => b != 0)) },
           [mk_frame Verb.RESP_OK q
              (TAG_ID :: ((v.take 31).takeWhile (fun b => b != 0)).length
                :: (v.take 31).takeWhile (fun b => b != 0))],
           false⟩ := by
  intro env st frame len v q h4 hv hfind hvalid
  have hbounds := is_valid_id_bounds hvalid
  have hnz : ∀ b ∈ (v.take 31).takeWhile (fun b => b != 0), b ≠ 0 :=
    mem_takeWhile_ne_zero rfl
  have hcs : cstr (pad32 ((v.take 31).takeWhile (fun b => b != 0)))
      = (v.take 31).takeWhile (fun b => b != 0) :=
    cstr_pad32 _ hbounds.2 hnz
  have hproj : ({ st with s_id := pad32 ((v.take 31).takeWhile (fun b => b != 0)) }
      : NodeState).s_id = pad32 ((v.take 31).takeWhile (fun b => b != 0)) := rfl
  constructor
  · rw [on_packet_set_id_ok env st frame len v h4 hv hfind hvalid,
      node_interface_send_hello, send_tag_id, hproj, hcs]
  · rw [on_packet_get_id env _ [Verb.GET_ID, 0, q, 0] 4 (le_refl 4) (Or.inl rfl),
      send_tag_id, hproj, hcs,
      show ([Verb.GET_ID, 0, q, 0] : List Nat).getD 2 0 = q from rfl]

/-- Witness for C6: SET_ID with TAG_ID value "N30" on the initial state.  The
response and the separate hello both carry TAG_ID "N30" and a following
GET_ID returns "N30". -/
theorem C6_set_id_success_witness :
    (4 ≤ 9)
    ∧ (([2, 0, 3, 5, 1, 3, 78, 51, 48] : List Nat).getD 0 0 = Verb.SET_ID)
    ∧ tlv_find [2, 0, 3, 5, 1, 3, 78, 51, 48] 9 TAG_ID = some [78, 51, 48]
    ∧ is_valid_id ((([78, 51, 48] : List Nat).take 31).takeWhile (fun b => b != 0)) = true
    ∧ node_interface_on_packet env0 init_state [2, 0, 3, 5, 1, 3, 78, 51, 48] 9
        = ⟨{ init_state with s_id := pad32 [78, 51, 48] },
           [[0x90, 0, 3, 5, 1, 3, 78, 51, 48], [0x90, 0, 0, 5, 1, 3, 78, 51, 48]], true⟩
    ∧ node_interface_on_packet env0 { init_state with s_id := pad32 [78, 51, 48] }
        [Verb.GET_ID, 0, 7, 0] 4
        = ⟨{ init_state with s_id := pad32 [78, 51, 48] },
           [[0x90, 0, 7, 5, 1, 3, 78, 51, 48]], false⟩ := by
  have h := C6_set_id_success env0 init_state [2, 0, 3, 5, 1, 3, 78, 51, 48] 9 [78, 51, 48] 7
    (by decide) (by decide) (by decide) (by decide)
  exact ⟨by decide, by decide, by decide, by decide,
    h.1.trans (by decide), h.2.trans (by decide)⟩

/-- Claim C7: a SET_ID frame whose TAG_ID record is absent, empty, or whose
clamped value fails validation answers RESP_ERR; the state is not mutated and
nothing is persisted, so a following GET_ID still returns the prior ID. -/
theorem C7_set_id_failure :
    ∀ (env : NodeEnv) (st : NodeState) (frame : List Nat) (len q : Nat),
      4 ≤ len →
      frame.getD 0 0 = Verb.SET_ID →
      (tlv_find frame len TAG_ID = none ∨
        ∃ v, tlv_find frame len TAG_ID = some v ∧
          (v.length = 0 ∨ is_valid_id ((v.take 31).takeWhile (fun b => b != 0)) = false)) →
      node_interface_on_packet env st frame len
        = ⟨st, [send_resp_err (frame.getD 2 0)], false⟩
      ∧ node_interface_on_packet env st [Verb.GET_ID, 0, q, 0] 4
        = ⟨st, [mk_frame Verb.RESP_OK q (TAG_ID :: (cstr st.s_id).length :: cstr st.s_id)],
           false⟩ := by
  intro env st frame len q h4 hv herr
  constructor
  · exact on_packet_set_id_err env st frame len h4 hv herr
  · rw [on_packet_get_id env st [Verb.GET_ID, 0, q, 0] 4 (le_refl 4) (Or.inl rfl),
      send_tag_id,
      show ([Verb.GET_ID, 0, q, 0] : List Nat).getD 2 0 = q from rfl]

/-- Witness for C7: SET_ID with TAG_ID value "bad id" (contains a space) on
the initial state: RESP_ERR, nothing saved, GET_ID still returns "HckrMn". -/
theorem C7_set_id_failure_witness :
    (4 ≤ 12)
    ∧ (([2, 0, 3, 8, 1, 6, 98, 97, 100, 32, 105, 100] : List Nat).getD 0 0 = Verb.SET_ID)
    ∧ (tlv_find [2, 0, 3, 8, 1, 6, 98, 97, 100, 32, 105, 100] 12 TAG_ID = none ∨
        ∃ v, tlv_find [2, 0, 3, 8, 1, 6, 98, 97, 100, 32, 105, 100] 12 TAG_ID = some v ∧
          (v.length = 0 ∨ is_valid_id ((v.take 31).takeWhile (fun b => b != 0)) = false))
    ∧ node_interface_on_packet env0 init_state [2, 0, 3, 8, 1, 6, 98, 97, 100, 32, 105, 100] 12
        = ⟨init_state, [[0x91, 0, 3, 0]], false⟩
    ∧ node_interface_on_packet env0 init_state [Verb.GET_ID, 0, 5, 0] 4
        = ⟨init_state, [[0x90, 0, 5, 8, 1, 6, 72, 99, 107, 114, 77, 110]], false⟩ := by
  have h := C7_set_id_failure env0 init_state [2, 0, 3, 8, 1, 6, 98, 97, 100, 32, 105, 100] 12 5
    (by decide) (by decide)
    (Or.inr ⟨[98, 97, 100, 32, 105, 100], by decide, Or.inr (by decide)⟩)
  exact ⟨by decide, by decide,
    Or.inr ⟨[98, 97, 100, 32, 105, 100], by decide, Or.inr (by decide)⟩,
    h.1.trans (by decide), h.2.trans (by decide)⟩

/-- Claim C3: when the SET_PARAM scan fails on some recognized field, the
interpreter answers RESP_ERR and never persists, but keeps all in-memory
mutations the scan already made (first conjunct).  The second conjunct shows
this concretely on every state: a request carrying a valid TAG_FREQ_HZ, then
TAG_SF = 13 (invalid), then an unrecognized tag 0x7F, answers RESP_ERR with
no save, yet the new frequency stays applied and the unrecognized record is
ignored. -/
theorem C3_set_param_partial_failure :
    (∀ (env : NodeEnv) (st : NodeState) (frame : List Nat) (len : Nat),
      4 ≤ len →
      frame.getD 0 0 = Verb.SET_PARAM →
      (set_param_scan frame (4 + frame.getD 3 0) (frame.getD 3 0) 4 st true).2 = false →
      node_interface_on_packet env st frame len
        = ⟨(set_param_scan frame (4 + frame.getD 3 0) (frame.getD 3 0) 4 st true).1,
           [send_resp_err (frame.getD 2 0)], false⟩)
    ∧ (∀ (env : NodeEnv) (st : NodeState) (seq fv : Nat),
      fv < 2 ^ 32 →
      node_interface_on_packet env st
          (Verb.SET_PARAM :: 0 :: seq :: 12
            :: encode_tlvs [(TAG_FREQ_HZ, le_bytes 4 fv), (TAG_SF, [13]), (0x7F, [9])])
          16
        = ⟨{ st with s_freq_hz := fv }, [send_resp_err seq], false⟩) := by
  constructor
  · intro env st frame len h4 hv hfail
    exact on_packet_set_param_err env st frame len h4 hv hfail
  · intro env st seq fv hfv
    have hsc := set_param_scan_encode
      [(TAG_FREQ_HZ, le_bytes 4 fv), (TAG_SF, [13]), (0x7F, [9])]
      [Verb.SET_PARAM, 0, seq, 12] [] st true 12 (by simp)
    have hfold : List.foldl (fun a r => set_param_apply r.1 r.2 a.1 a.2) (st, true)
        [(TAG_FREQ_HZ, le_bytes 4 fv), (TAG_SF, [13]), (0x7F, [9])]
        = ({ st with s_freq_hz := fv }, false) := by
      have e1 := set_param_apply_freq (le_bytes 4 fv) st true (le_bytes_length 4 fv)
      have e2 : set_param_apply TAG_SF [13]
          { st with s_freq_hz := le_decode (le_bytes 4 fv) } true
          = ({ st with s_freq_hz := le_decode (le_bytes 4 fv) }, false) :=
        set_param_apply_sf_invalid [13] _ true (by
          intro u hu
          rw [tlv_read_le_singleton] at hu
          injection hu with hu13
          rw [← hu13]
          decide)
      have e3 := set_param_apply_unknown 0x7F [9]
        { st with s_freq_hz := le_decode (le_bytes 4 fv) } false (by decide)
      simp only [List.foldl_cons, List.foldl_nil, e1, e2, e3]
      rw [le_decode_le_bytes, Nat.mod_eq_of_lt (show fv < 2 ^ (8 * 4) by
        simpa using hfv)]
    have hscan : set_param_scan
        (Verb.SET_PARAM :: 0 :: seq :: 12
          :: encode_tlvs [(TAG_FREQ_HZ, le_bytes 4 fv), (TAG_SF, [13]), (0x7F, [9])])
        (4 + (Verb.SET_PARAM :: 0 :: seq :: 12
          :: encode_tlvs [(TAG_FREQ_HZ, le_bytes 4 fv), (TAG_SF, [13]), (0x7F, [9])]).getD 3 0)
        ((Verb.SET_PARAM :: 0 :: seq :: 12
          :: encode_tlvs [(TAG_FREQ_HZ, le_bytes 4 fv), (TAG_SF, [13]), (0x7F, [9])]).getD 3 0)
        4 st true
        = ({ st with s_freq_hz := fv }, false) := hsc.trans hfold
    rw [on_packet_set_param_err env st
        (Verb.SET_PARAM :: 0 :: seq :: 12
          :: encode_tlvs [(TAG_FREQ_HZ, le_bytes 4 fv), (TAG_SF, [13]), (0x7F, [9])])
        16 (by omega) rfl (by rw [hscan]), hscan]
    rfl

/-- Witness for C3: the failing SET_PARAM request on the initial state with
frequency 868000000: RESP_ERR, no save, frequency applied anyway. -/
theorem C3_set_param_partial_failure_witness :
    868000000 < 2 ^ 32
    ∧ node_interface_on_packet env0 init_state
        (Verb.SET_PARAM :: 0 :: 4 :: 12
          :: encode_tlvs [(TAG_FREQ_HZ, le_bytes 4 868000000), (TAG_SF, [13]), (0x7F, [9])])
        16
      = ⟨{ init_state with s_freq_hz := 868000000 }, [[0x91, 0, 4, 0]], false⟩ :=
  ⟨by decide,
   (C3_set_param_partial_failure.2 env0 init_state 4 868000000 (by decide)).trans
     (by decide)⟩

lemma send_tag_sf (env : NodeEnv) (st : NodeState) :
    send_tag_value env st [] TAG_SF = [TAG_SF, 1, st.s_sf % 256] := by
  rw [send_tag_value, if_neg (by decide), if_neg (by decide), if_neg (by decide),
    if_neg (by decide), if_neg (by decide), if_neg (by decide), if_pos rfl]
  rfl

lemma get_param_scan_step (env : NodeEnv) (st : NodeState) (frame : List Nat)
    (end_ fuel off : Nat) (buf : List Nat) (t L : Nat)
    (hfuel : fuel ≠ 0) (hc : off + 2 ≤ end_)
    (ht : frame.getD off 0 = t) (hL : frame.getD (off + 1) 0 = L) :
    get_param_scan env st frame end_ fuel off buf
      = get_param_scan env st frame end_ (fuel - 1) (off + 2 + L)
          (if L = 0 then send_tag_value env st buf t else buf) := by
  obtain ⟨f, rfl⟩ : ∃ f, fuel = f + 1 := ⟨fuel - 1, by omega⟩
  rw [get_param_scan, if_pos hc, ht, hL]
  rfl

lemma get_param_scan_stop (env : NodeEnv) (st : NodeState) (frame : List Nat)
    (end_ fuel off : Nat) (buf : List Nat) (hc : ¬(off + 2 ≤ end_)) :
    get_param_scan env st frame end_ fuel off buf = buf := by
  cases fuel with
  | zero => rfl
  | succ fuel => rw [get_param_scan, if_neg hc]

lemma get_param_sf_resp (env : NodeEnv) (st : NodeState) (q : Nat) :
    get_param_scan env st [Verb.GET_PARAM, 0, q, 2, TAG_SF, 0]
      (4 + ([Verb.GET_PARAM, 0, q, 2, TAG_SF, 0] : List Nat).getD 3 0)
      (([Verb.GET_PARAM, 0, q, 2, TAG_SF, 0] : List Nat).getD 3 0) 4 []
      = [TAG_SF, 1, st.s_sf % 256] := by
  rw [show ([Verb.GET_PARAM, 0, q, 2, TAG_SF, 0] : List Nat).getD 3 0 = 2 from rfl,
    get_param_scan_step env st [Verb.GET_PARAM, 0, q, 2, TAG_SF, 0] (4 + 2) 2 4 []
      TAG_SF 0 (by omega) (by omega) rfl rfl,
    if_pos rfl,
    show (2 - 1 : Nat) = 1 from rfl,
    show (4 + 2 + 0 : Nat) = 6 from rfl,
    get_param_scan_stop env st [Verb.GET_PARAM, 0, q, 2, TAG_SF, 0] (4 + 2) 1 6 _
      (by omega),
    send_tag_sf]

/-- Claim C8: a SET_PARAM frame whose single TAG_SF record decodes to a value
outside 7..12 answers RESP_ERR, persists nothing and leaves the stored
spreading factor unchanged, whatever other non-TAG_SF records surround it;
a following GET_PARAM for TAG_SF returns the previous value. -/
theorem C8_set_param_sf_rejected :
    ∀ (env : NodeEnv) (st : NodeState) (seq v q : Nat)
      (pre post : List (Nat × List Nat)),
      ¬(7 ≤ v ∧ v ≤ 12) →
      st.s_sf < 256 →
      (∀ r ∈ pre, r.1 ≠ TAG_SF) →
      (∀ r ∈ post, r.1 ≠ TAG_SF) →
      (node_interface_on_packet env st
          (Verb.SET_PARAM :: 0 :: seq
            :: (encode_tlvs (pre ++ [(TAG_SF, [v])] ++ post)).length
            :: encode_tlvs (pre ++ [(TAG_SF, [v])] ++ post))
          (4 + (encode_tlvs (pre ++ [(TAG_SF, [v])] ++ post)).length)).sent
        = [send_resp_err seq]
      ∧ (node_interface_on_packet env st
          (Verb.SET_PARAM :: 0 :: seq
            :: (encode_tlvs (pre ++ [(TAG_SF, [v])] ++ post)).length
            :: encode_tlvs (pre ++ [(TAG_SF, [v])] ++ post))
          (4 + (encode_tlvs (pre ++ [(TAG_SF, [v])] ++ post)).length)).saved = false
      ∧ (node_interface_on_packet env st
          (Verb.SET_PARAM :: 0 :: seq
            :: (encode_tlvs (pre ++ [(TAG_SF, [v])] ++ post)).length
            :: encode_tlvs (pre ++ [(TAG_SF, [v])] ++ post))
          (4 + (encode_tlvs (pre ++ [(TAG_SF, [v])] ++ post)).length)).st.s_sf = st.s_sf
      ∧ (node_interface_on_packet env
          (node_interface_on_packet env st
            (Verb.SET_PARAM :: 0 :: seq
              :: (encode_tlvs (pre ++ [(TAG_SF, [v])] ++ post)).length
              :: encode_tlvs (pre ++ [(TAG_SF, [v])] ++ post))
            (4 + (encode_tlvs (pre ++ [(TAG_SF, [v])] ++ post)).length)).st
          [Verb.GET_PARAM, 0, q, 2, TAG_SF, 0] 6).sent
        = [[Verb.RESP_OK, 0, q, 3, TAG_SF, 1, st.s_sf]] := by
  intro env st seq v q pre post hv hlt hpre hpost
  have hsc := set_param_scan_encode (pre ++ [(TAG_SF, [v])] ++ post)
    [Verb.SET_PARAM, 0, seq, (encode_tlvs (pre ++ [(TAG_SF, [v])] ++ post)).length]
    [] st true (encode_tlvs (pre ++ [(TAG_SF, [v])] ++ post)).length
    (length_le_encode_tlvs _)
  rw [List.append_nil] at hsc
  have hscan : set_param_scan
      (Verb.SET_PARAM :: 0 :: seq
        :: (encode_tlvs (pre ++ [(TAG_SF, [v])] ++ post)).length
        :: encode_tlvs (pre ++ [(TAG_SF, [v])] ++ post))
      (4 + (Verb.SET_PARAM :: 0 :: seq
        :: (encode_tlvs (pre ++ [(TAG_SF, [v])] ++ post)).length
        :: encode_tlvs (pre ++ [(TAG_SF, [v])] ++ post)).getD 3 0)
      ((Verb.SET_PARAM :: 0 :: seq
        :: (encode_tlvs (pre ++ [(TAG_SF, [v])] ++ post)).length
        :: encode_tlvs (pre ++ [(TAG_SF, [v])] ++ post)).getD 3 0)
      4 st true
      = List.foldl (fun a r => set_param_apply r.1 r.2 a.1 a.2) (st, true)
          (pre ++ [(TAG_SF, [v])] ++ post) := hsc
  have hmid : ∀ a : NodeState × Bool,
      List.foldl (fun a r => set_param_apply r.1 r.2 a.1 a.2) a [(TAG_SF, [v])]
        = (a.1, false) := by
    intro a
    rw [List.foldl_cons, List.foldl_nil]
    exact set_param_apply_sf_invalid [v] a.1 a.2 (by
      intro u hu
      rw [tlv_read_le_singleton] at hu
      injection hu with huv
      rw [← huv, is_valid_sf]
      exact decide_eq_false hv)
  have hfold2 : (List.foldl (fun a r => set_param_apply r.1 r.2 a.1 a.2) (st, true)
      (pre ++ [(TAG_SF, [v])] ++ post)).2 = false := by
    rw [List.foldl_append, List.foldl_append, hmid]
    exact set_param_scan_foldl_ok_false post _ rfl
  have hfoldsf : (List.foldl (fun a r => set_param_apply r.1 r.2 a.1 a.2) (st, true)
      (pre ++ [(TAG_SF, [v])] ++ post)).1.s_sf = st.s_sf := by
    rw [List.foldl_append, List.foldl_append, hmid]
    rw [set_param_scan_foldl_sf post _ hpost]
    exact set_param_scan_foldl_sf pre _ hpre
  rw [on_packet_set_param_err env st
      (Verb.SET_PARAM :: 0 :: seq
        :: (encode_tlvs (pre ++ [(TAG_SF, [v])] ++ post)).length
        :: encode_tlvs (pre ++ [(TAG_SF, [v])] ++ post))
      (4 + (encode_tlvs (pre ++ [(TAG_SF, [v])] ++ post)).length)
      (by omega) rfl (by rw [hscan]; exact hfold2)]
  refine ⟨rfl, rfl, by rw [hscan]; exact hfoldsf, ?_⟩
  rw [on_packet_get_param env _ [Verb.GET_PARAM, 0, q, 2, TAG_SF, 0] 6 (by omega) rfl,
    get_param_sf_resp env _ q, hscan, hfoldsf, Nat.mod_eq_of_lt hlt]
  rfl


/-- Witness for C8: TAG_SF = 13 as the only record, on the initial state
(stored spreading factor 9). -/
theorem C8_set_param_sf_rejected_witness :
    ¬((7 : Nat) ≤ 13 ∧ (13 : Nat) ≤ 12)
    ∧ init_state.s_sf < 256
    ∧ (node_interface_on_packet env0 init_state [0x11, 0, 4, 3, 0x11, 1, 13] 7).sent
        = [[0x91, 0, 4, 0]]
    ∧ (node_interface_on_packet env0 init_state [0x11, 0, 4, 3, 0x11, 1, 13] 7).saved = false
    ∧ (node_interface_on_packet env0 init_state [0x11, 0, 4, 3, 0x11, 1, 13] 7).st.s_sf = 9
    ∧ (node_interface_on_packet env0
        (node_interface_on_packet env0 init_state [0x11, 0, 4, 3, 0x11, 1, 13] 7).st
        [0x10, 0, 6, 2, 0x11, 0] 6).sent
        = [[0x90, 0, 6, 3, 0x11, 1, 9]] := by
  have h := C8_set_param_sf_rejected env0 init_state 4 13 6 [] []
    (by decide) (by decide) (by simp) (by simp)
  exact ⟨by decide, by decide, h.1.trans (by decide), h.2.1,
    h.2.2.1.trans (by decide), h.2.2.2.trans (by decide)⟩


lemma getD_map_range (f : Nat → Nat) (m i : Nat) (hi : i < m) :
    ((List.range m).map f).getD i 0 = f i := by
  rw [List.getD_eq_getElem _ _ (by simpa using hi)]
  simp

lemma strncpy_arr_length (dst src : List Nat) (n : Nat) :
    (strncpy_arr dst src n).length = dst.length := by
  simp [strncpy_arr]

lemma strncpy_arr_getD_ge (dst src : List Nat) (n i : Nat) (h : n ≤ i) :
    (strncpy_arr dst src n).getD i 0 = dst.getD i 0 := by
  by_cases hi : i < dst.length
  · rw [strncpy_arr, getD_map_range _ _ _ hi, if_neg (by omega)]
  · rw [List.getD_eq_default _ _ (by rw [strncpy_arr_length]; omega),
      List.getD_eq_default _ _ (by omega)]

lemma strncpy_arr_getD_lt (dst src : List Nat) (n i : Nat) (h : i < n)
    (hlen : i < dst.length) (hnz : ∀ j, j ≤ i → src.getD j 0 ≠ 0) :
    (strncpy_arr dst src n).getD i 0 = src.getD i 0 := by
  rw [strncpy_arr, getD_map_range _ _ _ hlen, if_pos h, if_neg]
  intro hany
  rw [List.any_eq_true] at hany
  obtain ⟨j, hj, hfj⟩ := hany
  rw [List.mem_range] at hj
  exact hnz j (by omega) (by simpa using hfj)

/-- Claim C10: the SET_PARAM TAG_ALIAS handler is a bare strncpy of at most
min(L, 31) bytes with no terminator: bytes of the previous alias at positions
from min(L, 31) on stay in place, and when the copied bytes contain no NUL
the first min(L, 31) positions hold the new value.  The final conjuncts show
the observable consequence: after alias "ABCDEFGH" is replaced by a 2-byte
value "XY", GET_PARAM returns "XYCDEFGH" — new bytes then leftover suffix. -/
theorem C10_alias_no_terminator :
    (∀ (v : List Nat) (st : NodeState) (ok : Bool),
      set_param_apply TAG_ALIAS v st ok
        = ({ st with s_alias := strncpy_arr st.s_alias v (min v.length 31) }, ok))
    ∧ (∀ (v : List Nat) (st : NodeState) (ok : Bool) (i : Nat),
      min v.length 31 ≤ i →
      (((set_param_apply TAG_ALIAS v st ok).1).s_alias).getD i 0
        = st.s_alias.getD i 0)
    ∧ (∀ (v : List Nat) (st : NodeState) (ok : Bool) (i : Nat),
      i < min v.length 31 → i < st.s_alias.length →
      (∀ j, j ≤ i → v.getD j 0 ≠ 0) →
      (((set_param_apply TAG_ALIAS v st ok).1).s_alias).getD i 0 = v.getD i 0)
    ∧ ((node_interface_on_packet env0
        { init_state with s_alias := pad32 [65, 66, 67, 68, 69, 70, 71, 72] }
        [0x11, 0, 9, 4, 0x02, 2, 88, 89] 8).saved = true
      ∧ cstr (node_interface_on_packet env0
          { init_state with s_alias := pad32 [65, 66, 67, 68, 69, 70, 71, 72] }
          [0x11, 0, 9, 4, 0x02, 2, 88, 89] 8).st.s_alias
        = [88, 89, 67, 68, 69, 70, 71, 72]
      ∧ (node_interface_on_packet env0
          (node_interface_on_packet env0
            { init_state with s_alias := pad32 [65, 66, 67, 68, 69, 70, 71, 72] }
            [0x11, 0, 9, 4, 0x02, 2, 88, 89] 8).st
          [0x10, 0, 10, 2, 0x02, 0] 6).sent
        = [[0x90, 0, 10, 10, 0x02, 8, 88, 89, 67, 68, 69, 70, 71, 72]]) := by
  have happly : ∀ (v : List Nat) (st : NodeState) (ok : Bool),
      set_param_apply TAG_ALIAS v st ok
        = ({ st with s_alias := strncpy_arr st.s_alias v (min v.length 31) }, ok) := by
    intro v st ok
    rw [set_param_apply, if_pos rfl]
  refine ⟨happly, ?_, ?_, by decide, by decide, by decide⟩
  · intro v st ok i hi
    rw [happly]
    exact strncpy_arr_getD_ge st.s_alias v (min v.length 31) i hi
  · intro v st ok i hi hlen hnz
    rw [happly]
    exact strncpy_arr_getD_lt st.s_alias v (min v.length 31) i hi hlen hnz

/-- Witness for C10: the preserved-suffix conjunct applied at value [88, 89]
against the "ABCDEFGH" alias array, position 2. -/
theorem C10_alias_no_terminator_witness :
    min ([88, 89] : List Nat).length 31 ≤ 2
    ∧ (((set_param_apply TAG_ALIAS [88, 89]
          { init_state with s_alias := pad32 [65, 66, 67, 68, 69, 70, 71, 72] }
          true).1).s_alias).getD 2 0
      = (pad32 [65, 66, 67, 68, 69, 70, 71, 72]).getD 2 0 :=
  ⟨by decide,
   C10_alias_no_terminator.2.1 [88, 89]
     { init_state with s_alias := pad32 [65, 66, 67, 68, 69, 70, 71, 72] } true 2
     (by decide)⟩

/-- Claim C1 (refuted; code bug): the frame interpreter does read bytes past
the delivered length and does answer RESP_OK on structurally invalid frames.
The two 4-byte GET_PARAM deliveries below are identical in their 4 delivered
bytes (header [0x10, 0, 1, 2] with declared tlv_len 2 but zero TLV bytes
provided); the list entries at indices 4..5 model the adjacent memory beyond
the frame.  The responses differ with the adjacent memory, so the scan reads
past len, and the response is RESP_OK, not silence or RESP_ERR.  A GET_ID
frame with a declared tlv_len of 200 and only 4 delivered bytes is also
answered RESP_OK. -/
theorem C1_reads_past_len_and_answers_ok :
    (node_interface_on_packet env0 init_state [0x10, 0, 1, 2, 0x11, 0] 4).sent
      ≠ (node_interface_on_packet env0 init_state [0x10, 0, 1, 2, 0x20, 0] 4).sent
    ∧ (node_interface_on_packet env0 init_state [0x10, 0, 1, 2, 0x11, 0] 4).sent
      = [[0x90, 0, 1, 3, 0x11, 1, 9]]
    ∧ (node_interface_on_packet env0 init_state [0x10, 0, 1, 2, 0x20, 0] 4).sent
      = [[0x90, 0, 1, 3, 0x20, 1, 0]]
    ∧ (node_interface_on_packet env0 init_state [0x01, 0, 7, 200] 4).sent
      = [[0x90, 0, 7, 8, 1, 6, 72, 99, 107, 114, 77, 110]] := by
  decide

set_option maxRecDepth 10000 in
/-- Claim C2 (refuted; code bug): a structurally valid GET_PARAM request that
repeats TAG_FREQ_HZ 43 times (request TLV region 86 bytes, frame 90 bytes)
makes the interpreter build a 262-byte response: the 258-byte response TLV
region exceeds 255, the patched length byte is 258 mod 256 = 2 instead of the
bytes written, and the write exceeds the 128-byte response buffer of the
source.  Nothing guards against this. -/
theorem C2_get_param_response_overflow :
    4 + (([0x10, 0, 7, 86] ++ (List.replicate 43 [0x10, 0x00]).flatten) : List Nat).getD 3 0
      = (([0x10, 0, 7, 86] ++ (List.replicate 43 [0x10, 0x00]).flatten) : List Nat).length
    ∧ ((node_interface_on_packet env0 init_state
        ([0x10, 0, 7, 86] ++ (List.replicate 43 [0x10, 0x00]).flatten) 90).sent.headD
        []).length = 262
    ∧ ¬(((node_interface_on_packet env0 init_state
        ([0x10, 0, 7, 86] ++ (List.replicate 43 [0x10, 0x00]).flatten) 90).sent.headD
        []).length ≤ 128)
    ∧ ((node_interface_on_packet env0 init_state
        ([0x10, 0, 7, 86] ++ (List.replicate 43 [0x10, 0x00]).flatten) 90).sent.headD
        []).getD 3 0
      ≠ ((node_interface_on_packet env0 init_state
        ([0x10, 0, 7, 86] ++ (List.replicate 43 [0x10, 0x00]).flatten) 90).sent.headD
        []).length - 4
    ∧ ((node_interface_on_packet env0 init_state
        ([0x10, 0, 7, 86] ++ (List.replicate 43 [0x10, 0x00]).flatten) 90).sent.headD
        []).getD 3 0 = 2 := by
  decide

/-- Counterexample for C4: the GET_ALL response on the initial state is
RESP_OK but contains no TAG_FW_VERSION, TAG_UPTIME_S or TAG_BOOT_TIME record,
although it does contain TAG_ID; the claim that every known identity/system
tag is emitted is false. -/
theorem C4_get_all_omits_system_tags :
    ((node_interface_on_packet env0 init_state [0x12, 0, 5, 0] 4).sent.headD []).getD 0 0
      = Verb.RESP_OK
    ∧ tlv_find ((node_interface_on_packet env0 init_state [0x12, 0, 5, 0] 4).sent.headD [])
        ((node_interface_on_packet env0 init_state [0x12, 0, 5, 0] 4).sent.headD []).length
        TAG_FW_VERSION = none
    ∧ tlv_find ((node_interface_on_packet env0 init_state [0x12, 0, 5, 0] 4).sent.headD [])
        ((node_interface_on_packet env0 init_state [0x12, 0, 5, 0] 4).sent.headD []).length
        TAG_UPTIME_S = none
    ∧ tlv_find ((node_interface_on_packet env0 init_state [0x12, 0, 5, 0] 4).sent.headD [])
        ((node_interface_on_packet env0 init_state [0x12, 0, 5, 0] 4).sent.headD []).length
        TAG_BOOT_TIME = none
    ∧ tlv_find ((node_interface_on_packet env0 init_state [0x12, 0, 5, 0] 4).sent.headD [])
        ((node_interface_on_packet env0 init_state [0x12, 0, 5, 0] 4).sent.headD []).length
        TAG_ID = some [72, 99, 107, 114, 77, 110] := by
  decide

/-- Claim C4 as amended: every GET_ALL frame is answered RESP_OK with the
request seq, unconditionally emitting, in this fixed order, TAG_ID and
TAG_ALIAS, the radio tags, the behavior tags and the diagnostics tags —
TAG_FW_VERSION, TAG_UPTIME_S and TAG_BOOT_TIME are not included; the state is
unchanged and nothing is persisted. -/
theorem C4_get_all_amended :
    ∀ (env : NodeEnv) (st : NodeState) (frame : List Nat) (len : Nat),
      4 ≤ len →
      frame.getD 0 0 = Verb.GET_ALL →
      node_interface_on_packet env st frame len
        = ⟨st,
           [mk_frame Verb.RESP_OK (frame.getD 2 0)
             (List.foldl (send_tag_value env st) []
               [TAG_ID, TAG_ALIAS, TAG_FREQ_HZ, TAG_SF, TAG_BW_HZ, TAG_CR,
                TAG_TX_PWR_DBM, TAG_CHAN, TAG_MODE, TAG_HOPS, TAG_BEACON_SEC,
                TAG_BUF_SIZE, TAG_ACK_MODE, TAG_RSSI_DBM, TAG_SNR_DB, TAG_VBAT_MV,
                TAG_TEMP_C10, TAG_FREE_MEM, TAG_FREE_FLASH, TAG_LOG_COUNT])],
           false⟩ := by
  intro env st frame len h4 hv
  exact on_packet_get_all env st frame len h4 hv

/-- Witness for the amended C4: GET_ALL with seq 5 on the initial state — the
response is the full fixed-order tag dump, the state is unchanged, nothing is
saved. -/
theorem C4_get_all_amended_witness :
    (4 ≤ 4)
    ∧ (([0x12, 0, 5, 0] : List Nat).getD 0 0 = Verb.GET_ALL)
    ∧ node_interface_on_packet env0 init_state [0x12, 0, 5, 0] 4
      = ⟨init_state,
         [[144, 0, 5, 84, 1, 6, 72, 99, 107, 114, 77, 110, 2, 0, 16, 4, 192, 202, 137, 54,
           17, 1, 9, 18, 4, 72, 232, 1, 0, 19, 1, 5, 20, 1, 17, 21, 1, 0, 32, 1, 0,
           33, 1, 1, 34, 4, 0, 0, 0, 0, 35, 2, 32, 0, 36, 1, 0, 48, 2, 214, 255,
           49, 1, 7, 50, 2, 116, 14, 51, 2, 215, 0, 52, 4, 64, 226, 1, 0,
           53, 4, 241, 251, 9, 0, 54, 2, 0, 0]],
         false⟩ := by
  have h := C4_get_all_amended env0 init_state [0x12, 0, 5, 0] 4 (by decide) (by decide)
  exact ⟨by decide, by decide, h.trans (by decide)⟩
